import Mathlib

/-!
Verification of the minute-bucketing sliding-window emoji aggregator
(`EmojiAnalytics` in `analytical_server.py`).

Timestamps are modelled as integers counting whole seconds; a minute key is
the timestamp floor-divided by 60 (this mirrors `datetime.replace(second=0,
microsecond=0)`: truncation to minute granularity, with chronological order
preserved).  Python dictionaries (`defaultdict`) are modelled as
insertion-ordered association lists, and `deque` as `List` (append at the
back, pop at the front).  Timestamp parsing is modelled by passing the parse
result as an `Option Int`: `some t` for a successfully parsed timestamp,
`none` for a parse failure, together with the wall-clock time `now` that
`datetime.now()` would return (`add_emoji` substitutes it on failure).
-/

namespace EmojiStream

/-- Minute key of a timestamp given in seconds: floor division by 60.
Mirrors truncation of a `datetime` to zero seconds and microseconds. -/
def minuteOf (t : Int) : Int := Int.fdiv t 60

/-- The aggregator state: the fields of the Python class `EmojiAnalytics`. -/
structure EmojiAnalytics where
  window_size : Nat
  emoji_counts : List (String × List (Int × Nat))
  total_counts : List (Int × Nat)
  current_minute_counts : List (String × Nat)
  current_minute_total : Nat
  last_minute : Int
deriving Repr, DecidableEq

/-- `EmojiAnalytics.__init__`: empty series and bucket, `last_minute` set to
the current wall-clock minute. -/
def init (window_size_minutes : Nat) (now : Int) : EmojiAnalytics :=
  { window_size := window_size_minutes
    emoji_counts := []
    total_counts := []
    current_minute_counts := []
    current_minute_total := 0
    last_minute := minuteOf now }

/-- Dictionary lookup with default (`dict.get(k, v0)`). -/
def dictGetD {α : Type} (d : List (String × α)) (k : String) (v0 : α) : α :=
  match d with
  | [] => v0
  | (k0, v) :: rest => if k0 = k then v else dictGetD rest k v0

/-- `defaultdict(int)` increment: `d[k] += 1`, inserting the key at the end
(insertion order) when absent. -/
def bump (d : List (String × Nat)) (k : String) : List (String × Nat) :=
  match d with
  | [] => [(k, 1)]
  | (k0, v) :: rest => if k0 = k then (k0, v + 1) :: rest else (k0, v) :: bump rest k

/-- The eviction loop `while deque and deque[0][0] < cutoff: deque.popleft()`:
drop entries from the front while their minute key is before the cutoff. -/
def evict (cutoff : Int) (l : List (Int × Nat)) : List (Int × Nat) :=
  l.dropWhile (fun e => decide (e.1 < cutoff))

/-- One iteration of the per-category loop in `_save_minute_data`:
`emoji_counts[k].append((ts, c))` (a `defaultdict` creates the deque when
absent) followed by the front eviction with the given cutoff. -/
def dict_append_evict (d : List (String × List (Int × Nat))) (k : String)
    (ts : Int) (c : Nat) (cutoff : Int) : List (String × List (Int × Nat)) :=
  match d with
  | [] => [(k, evict cutoff ([] ++ [(ts, c)]))]
  | (k0, l) :: rest =>
      if k0 = k then (k0, evict cutoff (l ++ [(ts, c)])) :: rest
      else (k0, l) :: dict_append_evict rest k ts c cutoff

/-- `_save_minute_data`: close the open bucket at `last_minute` into the
per-category series (one append+evict per bucket entry, in insertion order)
and, when the bucket total is positive, into the total series.  The bucket
itself is NOT cleared here. -/
def save_minute_data (s : EmojiAnalytics) : EmojiAnalytics :=
  let ts := s.last_minute
  let cutoff := ts - (s.window_size : Int)
  let emoji2 := s.current_minute_counts.foldl
    (fun d p => dict_append_evict d p.1 ts p.2 cutoff) s.emoji_counts
  let total2 := if 0 < s.current_minute_total then
      evict cutoff (s.total_counts ++ [(ts, s.current_minute_total)])
    else s.total_counts
  { s with emoji_counts := emoji2, total_counts := total2 }

/-- `_reset_current_minute`: clear the open bucket. -/
def reset_current_minute (s : EmojiAnalytics) : EmojiAnalytics :=
  { s with current_minute_counts := [], current_minute_total := 0 }

/-- `add_emoji`: use the parsed timestamp, or the wall clock on parse
failure; when the event's minute is past the open minute, rotate (save,
reset, advance); then increment the category and total bucket counters. -/
def add_emoji (s : EmojiAnalytics) (emoji_type : String)
    (parsed : Option Int) (now : Int) : EmojiAnalytics :=
  let timestamp := parsed.getD now
  let current_minute := minuteOf timestamp
  let s1 :=
    if s.last_minute < current_minute then
      { reset_current_minute (save_minute_data s) with last_minute := current_minute }
    else s
  { s1 with current_minute_counts := bump s1.current_minute_counts emoji_type
            current_minute_total := s1.current_minute_total + 1 }

/-- `get_emoji_data`: force-close the open minute (without clearing the
bucket), then return the per-category series; also returns the state the
call leaves behind. -/
def get_emoji_data (s : EmojiAnalytics) :
    List (String × List (Int × Nat)) × EmojiAnalytics :=
  let s1 := save_minute_data s
  (s1.emoji_counts, s1)

/-- `get_total_data`: force-close the open minute (without clearing the
bucket), then return the total series; also returns the state left behind. -/
def get_total_data (s : EmojiAnalytics) : List (Int × Nat) × EmojiAnalytics :=
  let s1 := save_minute_data s
  (s1.total_counts, s1)

/-- The record returned by `get_current_stats`. -/
structure Stats where
  total_emojis : Nat
  emoji_breakdown : List (String × Nat)
  window_minutes : Nat
deriving Repr, DecidableEq

/-- `get_current_stats`: sum the total series plus the open bucket total; for
each category PRESENT IN `emoji_counts`, sum its series plus its open-bucket
count.  No force-close happens and no field is written. -/
def get_current_stats (s : EmojiAnalytics) : Stats × EmojiAnalytics :=
  ({ total_emojis := (s.total_counts.map (fun e => e.2)).sum + s.current_minute_total
     emoji_breakdown := s.emoji_counts.map
       (fun p => (p.1, (p.2.map (fun e => e.2)).sum + dictGetD s.current_minute_counts p.1 0))
     window_minutes := s.window_size }, s)

/-- One external operation on the aggregator. -/
inductive Op where
  | record (emoji_type : String) (parsed : Option Int) (now : Int)
  | queryEmoji
  | queryTotal
  | queryStats
deriving Repr, DecidableEq

/-- Apply one operation to the state (queries keep the state they leave). -/
def step (s : EmojiAnalytics) (op : Op) : EmojiAnalytics :=
  match op with
  | .record e p n => add_emoji s e p n
  | .queryEmoji => (get_emoji_data s).2
  | .queryTotal => (get_total_data s).2
  | .queryStats => (get_current_stats s).2

/-- Run a sequence of operations from a state. -/
def run (s : EmojiAnalytics) (ops : List Op) : EmojiAnalytics := ops.foldl step s

/-- Number of `record` calls for a given category in an operation list. -/
def countRecordsFor (cat : String) (ops : List Op) : Nat :=
  ops.countP (fun op => match op with
    | .record c _ _ => c == cat
    | _ => false)

/-- A category's retained series counts summed, plus its open-bucket count. -/
def retainedPlusBucket (cat : String) (s : EmojiAnalytics) : Nat :=
  ((dictGetD s.emoji_counts cat []).map (fun e => e.2)).sum +
    dictGetD s.current_minute_counts cat 0

/-- Boolean check that the minute keys of a series are strictly ascending. -/
def keysStrictAscB : List (Int × Nat) → Bool
  | [] => true
  | [_] => true
  | a :: b :: rest => (decide (a.1 < b.1)) && keysStrictAscB (b :: rest)

/-- All window-store series of a state: the total series and every
per-category series. -/
def allSeriesOf (s : EmojiAnalytics) : List (List (Int × Nat)) :=
  s.total_counts :: s.emoji_counts.map (fun p => p.2)

/-- Minute keys of a series are non-decreasing from front to back. -/
def sortedKeys (l : List (Int × Nat)) : Prop :=
  List.Pairwise (fun a b => a.1 ≤ b.1) l

/-- A well-formed series relative to window size `w` and open minute `m`:
keys non-decreasing, no key past `m`, and every entry within `w` minutes of
the series' own last entry. -/
def seriesOK (w : Nat) (m : Int) (l : List (Int × Nat)) : Prop :=
  sortedKeys l ∧ (∀ e ∈ l, e.1 ≤ m) ∧ ∀ e ∈ l, (l.getLastD (0, 0)).1 - e.1 ≤ (w : Int)

/-- Every window-store series of the state is well formed. -/
def stateOK (s : EmojiAnalytics) : Prop :=
  seriesOK s.window_size s.last_minute s.total_counts ∧
  ∀ p ∈ s.emoji_counts, seriesOK s.window_size s.last_minute p.2

/-- Looking up the bumped key returns one more than before. -/
theorem dictGetD_bump (d : List (String × Nat)) (k : String) :
    dictGetD (bump d k) k 0 = dictGetD d k 0 + 1 := by
  induction d with
  | nil => simp [bump, dictGetD]
  | cons p rest ih =>
      obtain ⟨k0, v⟩ := p
      by_cases h : k0 = k
      · simp [bump, dictGetD, h]
      · simp [bump, dictGetD, h, ih]

/-- Claim C1: a query operation is claimed to be idempotent (the second
force-close a no-op), but `get_total_data` appends the still-uncleared open
bucket a second time: after one recorded event, the first call returns one
entry and the immediately following call returns two. -/
theorem c1_second_force_close_not_noop :
    (get_total_data (run (init 3 36000) [Op.record "A" (some 36000) 36000])).1 ≠
      (get_total_data
        (get_total_data (run (init 3 36000) [Op.record "A" (some 36000) 36000])).2).1 := by
  decide

/-- Claim C2: series returned by the queries are claimed strictly ascending
in minute key, but after a record followed by two total queries the returned
total series is `[(600, 1), (600, 1)]` — a duplicated minute key. -/
theorem c2_duplicate_minute_keys :
    (get_total_data (run (init 3 36000)
        [Op.record "A" (some 36000) 36000, Op.queryTotal])).1 =
      [(600, 1), (600, 1)] ∧
    keysStrictAscB (get_total_data (run (init 3 36000)
        [Op.record "A" (some 36000) 36000, Op.queryTotal])).1 = false := by
  decide

/-- Claim C3: conservation is claimed (retained counts plus open bucket =
number of record calls), but a query's force-close appends the open bucket
without clearing it, so after one record and one query the event is counted
twice: retained + bucket = 2 while only one record call was made. -/
theorem c3_conservation_violated :
    countRecordsFor "A" [Op.record "A" (some 36000) 36000, Op.queryEmoji] = 1 ∧
    retainedPlusBucket "A"
      (run (init 3 36000) [Op.record "A" (some 36000) 36000, Op.queryEmoji]) = 2 ∧
    retainedPlusBucket "A"
        (run (init 3 36000) [Op.record "A" (some 36000) 36000, Op.queryEmoji]) ≠
      countRecordsFor "A" [Op.record "A" (some 36000) 36000, Op.queryEmoji] := by
  decide

/-- Claim C4: Scenario C claims `summary()` returns per-category totals
covering the open bucket, but `get_current_stats` iterates only over
`emoji_counts` (never force-closed by it): recording 🔥 three times and 💧
once within one minute yields total 4 but an EMPTY breakdown, not the
claimed mapping. -/
theorem c4_summary_misses_open_bucket_categories :
    (get_current_stats (run (init 3 43200)
        [Op.record "🔥" (some 43200) 43200, Op.record "🔥" (some 43200) 43200,
         Op.record "🔥" (some 43200) 43200, Op.record "💧" (some 43200) 43200])).1 =
      { total_emojis := 4, emoji_breakdown := [], window_minutes := 3 } := by
  decide

/-- Claim C6 (counterexample): Scenario A claims the 10:00 entry is evicted
at cutoff 10:03 − 3, but eviction is strict (`< cutoff`), so the entry whose
key equals the cutoff survives: the returned total series is not
`[(601, 1), (602, 1), (603, 1)]`. -/
theorem c6_boundary_entry_not_evicted :
    (get_total_data (run (init 3 36000)
        [Op.record "A" (some 36000) 36000, Op.record "A" (some 36060) 36060,
         Op.record "A" (some 36120) 36120, Op.record "A" (some 36180) 36180])).1 ≠
      [(601, 1), (602, 1), (603, 1)] := by
  decide

/-- Claim C6 (amended): with window 3 and one event of category A at each of
minutes 600..603, the total series returned after the 603 event contains all
of 600, 601, 602, 603 — the entry exactly `window_size` minutes old is
retained because eviction removes only keys strictly below the cutoff. -/
theorem c6_amended_boundary_entry_retained :
    (get_total_data (run (init 3 36000)
        [Op.record "A" (some 36000) 36000, Op.record "A" (some 36060) 36060,
         Op.record "A" (some 36120) 36120, Op.record "A" (some 36180) 36180])).1 =
      [(600, 1), (601, 1), (602, 1), (603, 1)] := by
  decide

/-- Claim C7: an event whose minute key is at most the open minute causes no
rotation — both window-store series and the open-minute marker are
unchanged — and its counts fold into the currently open bucket. -/
theorem c7_late_event_folds_into_open_bucket (s : EmojiAnalytics)
    (cat : String) (t now : Int) (h : minuteOf t ≤ s.last_minute) :
    (add_emoji s cat (some t) now).emoji_counts = s.emoji_counts ∧
    (add_emoji s cat (some t) now).total_counts = s.total_counts ∧
    (add_emoji s cat (some t) now).last_minute = s.last_minute ∧
    dictGetD (add_emoji s cat (some t) now).current_minute_counts cat 0 =
      dictGetD s.current_minute_counts cat 0 + 1 ∧
    (add_emoji s cat (some t) now).current_minute_total =
      s.current_minute_total + 1 := by
  have hnot : ¬ s.last_minute < minuteOf t := not_lt.mpr h
  simp [add_emoji, hnot, dictGetD_bump]

/-- Witness for C7 at a concrete input: state after one event in minute 600,
late event in the same minute. -/
theorem c7_late_event_folds_into_open_bucket_witness :
    minuteOf 36000 ≤ (add_emoji (init 3 36000) "A" (some 36000) 0).last_minute ∧
    ((add_emoji (add_emoji (init 3 36000) "A" (some 36000) 0) "A" (some 36000) 7).emoji_counts =
        (add_emoji (init 3 36000) "A" (some 36000) 0).emoji_counts ∧
      (add_emoji (add_emoji (init 3 36000) "A" (some 36000) 0) "A" (some 36000) 7).total_counts =
        (add_emoji (init 3 36000) "A" (some 36000) 0).total_counts ∧
      (add_emoji (add_emoji (init 3 36000) "A" (some 36000) 0) "A" (some 36000) 7).last_minute =
        (add_emoji (init 3 36000) "A" (some 36000) 0).last_minute ∧
      dictGetD (add_emoji (add_emoji (init 3 36000) "A" (some 36000) 0) "A" (some 36000) 7).current_minute_counts "A" 0 =
        dictGetD (add_emoji (init 3 36000) "A" (some 36000) 0).current_minute_counts "A" 0 + 1 ∧
      (add_emoji (add_emoji (init 3 36000) "A" (some 36000) 0) "A" (some 36000) 7).current_minute_total =
        (add_emoji (init 3 36000) "A" (some 36000) 0).current_minute_total + 1) :=
  ⟨by decide,
   c7_late_event_folds_into_open_bucket
     (add_emoji (init 3 36000) "A" (some 36000) 0) "A" 36000 7 (by decide)⟩

/-- Claim C8 (counterexample): the claim says a parse-failure event
increments the bucket FOR THE SUBSTITUTED CURRENT MINUTE; but if an earlier
event carried a future timestamp (minute 660), a later parse-failure event
at wall-clock minute 600 folds into the open 660 bucket — the open-minute
marker does not equal the substituted minute. -/
theorem c8_substituted_minute_not_bucket_minute :
    minuteOf 36030 = 600 ∧
    (add_emoji (add_emoji (init 3 36000) "A" (some 39600) 0) "B" none 36030).last_minute = 660 ∧
    dictGetD (add_emoji (add_emoji (init 3 36000) "A" (some 39600) 0) "B" none 36030).current_minute_counts "B" 0 = 1 ∧
    (add_emoji (add_emoji (init 3 36000) "A" (some 39600) 0) "B" none 36030).last_minute ≠
      minuteOf 36030 := by
  decide

/-- Claim C8 (amended): `add_emoji` is a total function (the parse failure is
caught and never propagates); on parse failure the wall clock `now` is
substituted and the event is not dropped: whenever the substituted minute is
at least the open minute, the open minute becomes the substituted minute and
that bucket's category and total counters are incremented by 1 (from zero if
a rotation just opened the bucket). -/
theorem c8_amended_fallback_counts_current_minute (s : EmojiAnalytics)
    (cat : String) (now : Int) (h : s.last_minute ≤ minuteOf now) :
    (add_emoji s cat none now).last_minute = minuteOf now ∧
    dictGetD (add_emoji s cat none now).current_minute_counts cat 0 =
      (if s.last_minute < minuteOf now then 0
        else dictGetD s.current_minute_counts cat 0) + 1 ∧
    (add_emoji s cat none now).current_minute_total =
      (if s.last_minute < minuteOf now then 0 else s.current_minute_total) + 1 := by
  by_cases hlt : s.last_minute < minuteOf now
  · simp [add_emoji, hlt, reset_current_minute, save_minute_data, bump, dictGetD]
  · have heq : s.last_minute = minuteOf now := le_antisymm h (not_lt.mp hlt)
    simp [add_emoji, hlt, dictGetD_bump, heq]

/-- Witness for C8 (amended) at a concrete input: parse failure on a fresh
aggregator whose open minute equals the wall-clock minute. -/
theorem c8_amended_fallback_counts_current_minute_witness :
    (init 3 36000).last_minute ≤ minuteOf 36030 ∧
    ((add_emoji (init 3 36000) "B" none 36030).last_minute = minuteOf 36030 ∧
      dictGetD (add_emoji (init 3 36000) "B" none 36030).current_minute_counts "B" 0 =
        (if (init 3 36000).last_minute < minuteOf 36030 then 0
          else dictGetD (init 3 36000).current_minute_counts "B" 0) + 1 ∧
      (add_emoji (init 3 36000) "B" none 36030).current_minute_total =
        (if (init 3 36000).last_minute < minuteOf 36030 then 0
          else (init 3 36000).current_minute_total) + 1) :=
  ⟨by decide, c8_amended_fallback_counts_current_minute (init 3 36000) "B" 36030 (by decide)⟩

/-- Claim C9: `get_current_stats` leaves every aggregator field exactly as it
was, while `get_emoji_data` and `get_total_data` do mutate the state (their
force-close appends the open bucket to the window-store series). -/
theorem c9_stats_pure_data_queries_mutate :
    (∀ s : EmojiAnalytics, (get_current_stats s).2 = s) ∧
    (get_emoji_data (run (init 3 36000) [Op.record "A" (some 36000) 36000])).2 ≠
      run (init 3 36000) [Op.record "A" (some 36000) 36000] ∧
    (get_total_data (run (init 3 36000) [Op.record "A" (some 36000) 36000])).2 ≠
      run (init 3 36000) [Op.record "A" (some 36000) 36000] :=
  ⟨fun _ => rfl, by decide, by decide⟩

/-- Eviction preserves non-decreasing keys (the result is a sublist). -/
theorem sortedKeys_evict {cutoff : Int} {l : List (Int × Nat)} (h : sortedKeys l) :
    sortedKeys (evict cutoff l) :=
  List.Pairwise.sublist (List.dropWhile_sublist _) h

/-- On a non-decreasing series, the eviction loop removes every entry before
the cutoff: all survivors are at or after it. -/
theorem evict_keys_ge {cutoff : Int} {l : List (Int × Nat)} (h : sortedKeys l) :
    ∀ e ∈ evict cutoff l, cutoff ≤ e.1 := by
  induction l with
  | nil => intro e he; simp [evict] at he
  | cons a t ih =>
      intro e he
      by_cases ha : a.1 < cutoff
      · rw [evict, List.dropWhile_cons_of_pos (by simpa using ha)] at he
        exact ih (List.pairwise_cons.mp h).2 e he
      · rw [evict, List.dropWhile_cons_of_neg (by simpa using ha)] at he
        rcases List.mem_cons.mp he with rfl | het
        · exact not_lt.mp ha
        · have hae := (List.pairwise_cons.mp h).1 e het
          have hca := not_lt.mp ha
          omega

/-- Evicting after appending an entry at or after the cutoff leaves that
entry as the (in particular, existing) last element. -/
theorem evict_getLastD_concat {cutoff : Int} {x : Int × Nat} (hx : ¬ x.1 < cutoff)
    (l : List (Int × Nat)) : (evict cutoff (l ++ [x])).getLastD (0, 0) = x := by
  induction l with
  | nil =>
      rw [List.nil_append, evict, List.dropWhile_cons_of_neg (by simpa using hx)]
      rfl
  | cons a t ih =>
      by_cases ha : a.1 < cutoff
      · rw [List.cons_append, evict, List.dropWhile_cons_of_pos (by simpa using ha)]
        exact ih
      · rw [List.cons_append, evict, List.dropWhile_cons_of_neg (by simpa using ha),
            ← List.cons_append]
        exact List.getLastD_concat _ _ _

/-- Core rotation lemma: appending the closing entry `(m, c)` to a
well-formed series and running the eviction loop with cutoff `m - w` yields
a well-formed series again (and re-establishes the window bound). -/
theorem seriesOK_append_evict {w : Nat} {m : Int} {l : List (Int × Nat)} (c : Nat)
    (hs : sortedKeys l) (hm : ∀ e ∈ l, e.1 ≤ m) :
    seriesOK w m (evict (m - (w : Int)) (l ++ [(m, c)])) := by
  have hw : (0 : Int) ≤ (w : Int) := Int.ofNat_nonneg w
  have hx : ¬ ((m, c) : Int × Nat).1 < m - (w : Int) := by
    show ¬ m < m - (w : Int); omega
  have hsort2 : sortedKeys (l ++ [(m, c)]) := by
    rw [sortedKeys, List.pairwise_append]
    refine ⟨hs, List.pairwise_singleton _ _, ?_⟩
    intro a ha b hb
    rw [List.mem_singleton] at hb
    subst hb
    exact hm a ha
  refine ⟨sortedKeys_evict hsort2, ?_, ?_⟩
  · intro e he
    have hmem : e ∈ l ++ [(m, c)] := List.dropWhile_subset _ he
    rcases List.mem_append.mp hmem with h1 | h2
    · exact hm e h1
    · rw [List.mem_singleton] at h2
      subst h2
      exact le_refl m
  · intro e he
    have hge : m - (w : Int) ≤ e.1 := evict_keys_ge hsort2 e he
    rw [evict_getLastD_concat hx]
    show m - e.1 ≤ (w : Int)
    omega

/-- One iteration of the per-category save loop keeps every series of the
dictionary well formed. -/
theorem dict_append_evict_OK {w : Nat} {m : Int} (k : String) (c : Nat) :
    ∀ {d : List (String × List (Int × Nat))},
      (∀ p ∈ d, seriesOK w m p.2) →
      ∀ p ∈ dict_append_evict d k m c (m - (w : Int)), seriesOK w m p.2 := by
  intro d
  induction d with
  | nil =>
      intro _ p hp
      rw [dict_append_evict, List.mem_singleton] at hp
      subst hp
      exact seriesOK_append_evict c List.Pairwise.nil (by simp)
  | cons q rest ih =>
      intro hd p hp
      obtain ⟨k0, l⟩ := q
      by_cases hk : k0 = k
      · rw [dict_append_evict, if_pos hk] at hp
        rcases List.mem_cons.mp hp with rfl | hrest
        · have hq := hd (k0, l) (List.mem_cons_self _ _)
          exact seriesOK_append_evict c hq.1 hq.2.1
        · exact hd p (List.mem_cons_of_mem _ hrest)
      · rw [dict_append_evict, if_neg hk] at hp
        rcases List.mem_cons.mp hp with rfl | hrest
        · exact hd (k0, l) (List.mem_cons_self _ _)
        · exact ih (fun p hp => hd p (List.mem_cons_of_mem _ hp)) p hrest

/-- Folding the save loop over the whole bucket keeps every series of the
dictionary well formed. -/
theorem save_fold_OK {w : Nat} {m : Int} :
    ∀ (bucket : List (String × Nat)) (d : List (String × List (Int × Nat))),
      (∀ p ∈ d, seriesOK w m p.2) →
      ∀ p ∈ bucket.foldl (fun d q => dict_append_evict d q.1 m q.2 (m - (w : Int))) d,
        seriesOK w m p.2 := by
  intro bucket
  induction bucket with
  | nil => intro d hd; simpa using hd
  | cons b t ih =>
      intro d hd
      rw [List.foldl_cons]
      exact ih _ (dict_append_evict_OK b.1 b.2 hd)

/-- `_save_minute_data` keeps the state well formed. -/
theorem stateOK_save {s : EmojiAnalytics} (h : stateOK s) :
    stateOK (save_minute_data s) := by
  obtain ⟨ht, he⟩ := h
  constructor
  · show seriesOK s.window_size s.last_minute
      (if 0 < s.current_minute_total then
        evict (s.last_minute - (s.window_size : Int))
          (s.total_counts ++ [(s.last_minute, s.current_minute_total)])
      else s.total_counts)
    by_cases hpos : 0 < s.current_minute_total
    · rw [if_pos hpos]
      exact seriesOK_append_evict _ ht.1 ht.2.1
    · rw [if_neg hpos]
      exact ht
  · exact save_fold_OK s.current_minute_counts s.emoji_counts he

/-- A well-formed series stays well formed when the open minute advances. -/
theorem seriesOK_mono {w : Nat} {m m2 : Int} {l : List (Int × Nat)}
    (h : seriesOK w m l) (hm : m ≤ m2) : seriesOK w m2 l :=
  ⟨h.1, fun e he => le_trans (h.2.1 e he) hm, h.2.2⟩

/-- Advancing the open-minute marker keeps the state well formed. -/
theorem stateOK_set_last {s : EmojiAnalytics} {m2 : Int} (h : stateOK s)
    (hm : s.last_minute ≤ m2) : stateOK { s with last_minute := m2 } :=
  ⟨seriesOK_mono h.1 hm, fun p hp => seriesOK_mono (h.2 p hp) hm⟩

/-- `add_emoji` keeps the state well formed. -/
theorem stateOK_add {s : EmojiAnalytics} (e : String) (p : Option Int) (n : Int)
    (h : stateOK s) : stateOK (add_emoji s e p n) := by
  simp only [add_emoji]
  by_cases hlt : s.last_minute < minuteOf (Option.getD p n)
  · rw [if_pos hlt]
    exact @stateOK_set_last (reset_current_minute (save_minute_data s))
      (minuteOf (Option.getD p n)) (stateOK_save h) (le_of_lt hlt)
  · rw [if_neg hlt]
    exact h

/-- Every operation keeps the state well formed. -/
theorem stateOK_step {s : EmojiAnalytics} (op : Op) (h : stateOK s) :
    stateOK (step s op) := by
  cases op with
  | record e p n => exact stateOK_add e p n h
  | queryEmoji => exact stateOK_save h
  | queryTotal => exact stateOK_save h
  | queryStats => exact h

/-- Any run from a well-formed state ends well formed. -/
theorem stateOK_run_from (ops : List Op) :
    ∀ {s : EmojiAnalytics}, stateOK s → stateOK (run s ops) := by
  induction ops with
  | nil => intro s h; exact h
  | cons op t ih => intro s h; exact ih (stateOK_step op h)

/-- A fresh aggregator is well formed. -/
theorem stateOK_init (w : Nat) (now : Int) : stateOK (init w now) := by
  refine ⟨⟨List.Pairwise.nil, ?_, ?_⟩, ?_⟩ <;> simp [init]

/-- No operation changes the configured window size. -/
theorem window_size_step (s : EmojiAnalytics) (op : Op) :
    (step s op).window_size = s.window_size := by
  cases op with
  | record e p n =>
      show (add_emoji s e p n).window_size = s.window_size
      simp only [add_emoji]
      split <;> rfl
  | queryEmoji => rfl
  | queryTotal => rfl
  | queryStats => rfl

/-- A run never changes the configured window size. -/
theorem window_size_run (s : EmojiAnalytics) (ops : List Op) :
    (run s ops).window_size = s.window_size := by
  induction ops generalizing s with
  | nil => rfl
  | cons op t ih =>
      show (run (step s op) t).window_size = s.window_size
      rw [ih, window_size_step]

/-- Claim C5 (counterexample): the claimed bound against the GLOBAL latest
closed minute fails for a category absent from the buckets being closed:
record A once at minute 600 and B once each at 601..605 with window 3; A's
series still retains the minute-600 entry although the latest closed minute
is 604, four minutes later — no eviction ever revisits A's series. -/
theorem c5_stale_category_escapes_global_bound :
    dictGetD (run (init 3 36000)
        [Op.record "A" (some 36000) 36000, Op.record "B" (some 36060) 36060,
         Op.record "B" (some 36120) 36120, Op.record "B" (some 36180) 36180,
         Op.record "B" (some 36240) 36240, Op.record "B" (some 36300) 36300]).emoji_counts
      "A" [] = [(600, 1)] ∧
    (((run (init 3 36000)
        [Op.record "A" (some 36000) 36000, Op.record "B" (some 36060) 36060,
         Op.record "B" (some 36120) 36120, Op.record "B" (some 36180) 36180,
         Op.record "B" (some 36240) 36240,
         Op.record "B" (some 36300) 36300]).window_size : Int) <
      ((run (init 3 36000)
        [Op.record "A" (some 36000) 36000, Op.record "B" (some 36060) 36060,
         Op.record "B" (some 36120) 36120, Op.record "B" (some 36180) 36180,
         Op.record "B" (some 36240) 36240,
         Op.record "B" (some 36300) 36300]).total_counts.getLastD (0, 0)).1 - 600) := by
  decide

/-- Claim C5 (amended): after any sequence of operations, every retained
entry of every series (per-category and total) is within `window_size`
minutes of THAT SERIES' OWN latest entry key; the bound is re-established by
the eviction run at each append, but series of categories absent from the
closing bucket are simply left untouched (they are never re-checked against
the global latest minute). -/
theorem c5_amended_window_bound_per_series (w : Nat) (m0 : Int) (ops : List Op)
    (l : List (Int × Nat)) (e : Int × Nat)
    (hl : l ∈ allSeriesOf (run (init w m0) ops)) (he : e ∈ l) :
    (l.getLastD (0, 0)).1 - e.1 ≤ (w : Int) := by
  have h := stateOK_run_from ops (stateOK_init w m0)
  rw [allSeriesOf] at hl
  rcases List.mem_cons.mp hl with rfl | hmem
  · have hb := h.1.2.2 e he
    rw [window_size_run] at hb
    exact hb
  · obtain ⟨p, hp, rfl⟩ := List.mem_map.mp hmem
    have hb := (h.2 p hp).2.2 e he
    rw [window_size_run] at hb
    exact hb

/-- Witness for C5 (amended) at a concrete input: one event at minute 600
followed by a total query; the single retained total entry is within the
window of the series' last entry. -/
theorem c5_amended_window_bound_per_series_witness :
    ([((600 : Int), (1 : Nat))] ∈
        allSeriesOf (run (init 3 36000)
          [Op.record "A" (some 36000) 36000, Op.queryTotal])) ∧
    (((600 : Int), (1 : Nat)) ∈ [((600 : Int), (1 : Nat))]) ∧
    (([((600 : Int), (1 : Nat))].getLastD (0, 0)).1 - (600 : Int) ≤ ((3 : Nat) : Int)) :=
  ⟨by decide, by decide,
   c5_amended_window_bound_per_series 3 36000
     [Op.record "A" (some 36000) 36000, Op.queryTotal]
     [((600 : Int), (1 : Nat))] ((600 : Int), (1 : Nat)) (by decide) (by decide)⟩

end EmojiStream
